import Mathlib

/-!
# Verification of the BUSE session orchestrator and dispatch loop

Shallow embedding of `src/buse.c` (block-device userspace extensions).

The embedding fixes the little-endian host configuration: the source selects
its 64-bit byte-order helper with `#ifdef WORDS_BIGENDIAN`, and the nontrivial
branch (lines 47-53, the one every claim about byte order refers to) is the
little-endian one, where the libc conversions `ntohl`/`htonl` are 32-bit byte
swaps.  Machine integers are modelled as `Nat` with explicit reductions
modulo `2^32` / `2^64` where the C types wrap; the C `int` values returned by
callbacks are modelled as `Int` and converted to the stored 32-bit word by
`intToU32` (two's-complement store).

The byte channel (the `sk` end of the socketpair) is modelled as a `List Nat`
of incoming bytes; output is the list of bytes written.  A `read` on a stream
socket delivers `min requested available` bytes and `0` at end of stream, so
a partial request header is exactly the case `0 < available < 28`
(`sizeof (struct nbd_request) = 28`, packed: magic 4, type 4, handle 8,
offset 8, length 4; `sizeof (struct nbd_reply) = 16`: magic 4, error 4,
handle 8, layouts from `<linux/nbd.h>`).  The struct fields as filled by
`read` hold the host-order interpretation of the wire bytes, i.e. the
little-endian value `leVal` of the component byte slices; writing a struct
emits the little-endian bytes `le32` of each field word.

`assert` failure (the code is compiled with assertions on; `read_all`,
`write_all`, `serve_nbd` and `buse_main` all rely on them) is modelled as the
fatal outcome (`StepResult.fatal`, `Option.none`): the process aborts.
Uninitialised `malloc` memory is modelled as zero bytes; no claim depends on
its contents.  Calls into the operation table are recorded in an event trace
so that "callback invoked (with these arguments) / not invoked" is a
statement of the model.
-/

/-- 32-bit byte swap.  On the modelled little-endian host this is what the
libc conversions `ntohl` and `htonl` compute. -/
def bswap32 (a : Nat) : Nat :=
  (a % 256) * 16777216 + (a / 256 % 256) * 65536 + (a / 65536 % 256) * 256 + (a / 16777216 % 256)

/-- `ntohl` on the little-endian host: 32-bit byte swap. -/
def ntohl (a : Nat) : Nat := bswap32 a

/-- `htonl` on the little-endian host: 32-bit byte swap. -/
def htonl (a : Nat) : Nat := bswap32 a

/-- `ntohll` from `src/buse.c` lines 47-53 (little-endian branch):
split into 32-bit halves (`lo = a & 0xffffffff`, `hi = a >> 32`), byte-swap
each half with `ntohl`, and recombine as `((u64) lo) << 32 | hi`.  Since the
swapped low half occupies the high word and `ntohl hi < 2^32`, the bitwise
`|` is addition. -/
def ntohll (a : Nat) : Nat :=
  let lo := a % 4294967296
  let hi := a / 4294967296
  ntohl lo * 4294967296 + ntohl hi

/-- `#define htonll ntohll` (line 55). -/
def htonll (a : Nat) : Nat := ntohll a

/-- `NBD_REQUEST_MAGIC` from `<linux/nbd.h>`. -/
def NBD_REQUEST_MAGIC : Nat := 0x25609513

/-- `NBD_REPLY_MAGIC` from `<linux/nbd.h>`. -/
def NBD_REPLY_MAGIC : Nat := 0x67446698

/-- `EPERM` ("operation not permitted") from `<errno.h>` on Linux. -/
def EPERM : Nat := 1

/-- Little-endian value of a byte list: what a little-endian host reads when
the listed wire bytes are laid over an integer field of a C struct. -/
def leVal : List Nat → Nat
  | [] => 0
  | b :: bs => b + 256 * leVal bs

/-- The four bytes a little-endian host stores for the 32-bit word `v`. -/
def le32 (v : Nat) : List Nat :=
  [v % 256, v / 256 % 256, v / 65536 % 256, v / 16777216 % 256]

/-- The eight bytes a little-endian host stores for the 64-bit word `v`. -/
def le64 (v : Nat) : List Nat :=
  le32 (v % 4294967296) ++ le32 (v / 4294967296)

/-- Two's-complement store of a C `int` into a 32-bit field. -/
def intToU32 (e : Int) : Nat := (e % 4294967296).toNat

/-- The operation table `struct buse_operations` (declared in `buse.h`,
used through `aop->...` in `src/buse.c`): optional callbacks plus the
device-geometry fields.  Callback signatures follow the call sites in
`serve_nbd`: `read` receives (length, offset, userdata) and yields the bytes
it wrote into the buffer together with its status; `write` receives
(buffer, length, offset, userdata); `trim` receives (offset, length,
userdata).  The userdata pointer is an opaque value of type `α`. -/
structure BuseOperations (α : Type) where
  read : Option (Nat → Nat → α → List Nat × Int) := none
  write : Option (List Nat → Nat → Nat → α → Int) := none
  disc : Option (α → Unit) := none
  flush : Option (α → Int) := none
  trim : Option (Nat → Nat → α → Int) := none
  blksize : Nat := 0
  size : Nat := 0
  size_blocks : Nat := 0

/-- One recorded callback invocation, with the arguments it was passed. -/
inductive Event (α : Type) where
  | readCb (len offset : Nat) (u : α) : Event α
  | writeCb (buf : List Nat) (len offset : Nat) (u : α) : Event α
  | flushCb (u : α) : Event α
  | trimCb (offset len : Nat) (u : α) : Event α
  | discCb (u : α) : Event α
deriving DecidableEq

/-- Outcome of one iteration of the `while` loop in `serve_nbd`:
`eof` — the header `read` returned 0, the loop exits and the function
returns `EXIT_SUCCESS`; `fatal` — an `assert` fired (partial header,
bad magic, unknown command, or short payload read inside `read_all`);
`reply` — a reply was written (`out` bytes), `rest` is the unconsumed part
of the channel and `trace` the callbacks invoked; `disc` — a DISCONNECT
request: `serve_nbd` returns `EXIT_SUCCESS` immediately, no reply. -/
inductive StepResult (α : Type) where
  | eof : StepResult α
  | fatal : StepResult α
  | reply (rest out : List Nat) (trace : List (Event α)) : StepResult α
  | disc (rest : List Nat) (trace : List (Event α)) : StepResult α
deriving DecidableEq

/-- The buffer `chunk` after the read callback wrote `l` into the first
bytes of a `malloc (n)` allocation: exactly `n` bytes, the unwritten tail
modelled as zero. -/
def padTo (n : Nat) (l : List Nat) : List Nat :=
  l.take n ++ List.replicate (n - l.length) 0

/-- Serialisation of `struct nbd_reply` as written by
`write_all (sk, &reply, sizeof (struct nbd_reply))`: the little-endian bytes
of `reply.magic = htonl (NBD_REPLY_MAGIC)`, of the 32-bit word sitting in
`reply.error`, then the eight handle bytes. -/
def encodeReply (error : Nat) (handle : List Nat) : List Nat :=
  le32 (htonl NBD_REPLY_MAGIC) ++ le32 error ++ handle

/-- One iteration of the dispatch loop in `serve_nbd`
(`src/buse.c` lines 123-190), operating on the remaining channel bytes.

* header read: `read (sk, &request, sizeof (request))` returns 0 on the
  empty channel (loop exit, `eof`); a partial header fails
  `assert (bytes_read == sizeof (request))` (line 124) — `fatal`;
* `memcpy (reply.handle, request.handle, 8)`, `reply.error = htonl (0)`;
* `len = ntohl (request.len)`, `from = ntohll (request.from)`,
  `assert (request.magic == htonl (NBD_REQUEST_MAGIC))` (line 130);
* `switch (ntohl (request.type))`:
  `NBD_CMD_READ = 0`, `NBD_CMD_WRITE = 1`, `NBD_CMD_DISC = 2`,
  `NBD_CMD_FLUSH = 3`, `NBD_CMD_TRIM = 4` (both feature cases are compiled
  in on the modelled Linux host), `default: assert (0)`.
  READ: buffer of `len` bytes, callback or `htonl (EPERM)`, reply then
  buffer.  WRITE: `read_all` of exactly `len` payload bytes (fatal if the
  channel has fewer), callback on them or `htonl (EPERM)`, reply header
  only.  DISC: optional callback, `return EXIT_SUCCESS`, no reply.
  FLUSH/TRIM: optional callback (error word stays 0 when absent), reply
  header only. -/
def serveStep {α : Type} (aop : BuseOperations α) (u : α) (input : List Nat) : StepResult α :=
  if input.length = 0 then .eof
  else if input.length < 28 then .fatal
  else
    let hdr := input.take 28
    let rest := input.drop 28
    let handle := (hdr.drop 8).take 8
    let len := ntohl (leVal ((hdr.drop 24).take 4))
    let offset := ntohll (leVal ((hdr.drop 16).take 8))
    if leVal (hdr.take 4) ≠ htonl NBD_REQUEST_MAGIC then .fatal
    else
      match ntohl (leVal ((hdr.drop 4).take 4)) with
      | 0 =>
        match aop.read with
        | some rd =>
          .reply rest (encodeReply (intToU32 (rd len offset u).2) handle ++
            padTo len (rd len offset u).1) [.readCb len offset u]
        | none =>
          .reply rest (encodeReply (htonl EPERM) handle ++ List.replicate len 0) []
      | 1 =>
        if len ≤ rest.length then
          match aop.write with
          | some wr =>
            .reply (rest.drop len)
              (encodeReply (intToU32 (wr (rest.take len) len offset u)) handle)
              [.writeCb (rest.take len) len offset u]
          | none => .reply (rest.drop len) (encodeReply (htonl EPERM) handle) []
        else .fatal
      | 2 =>
        match aop.disc with
        | some _ => .disc rest [.discCb u]
        | none => .disc rest []
      | 3 =>
        match aop.flush with
        | some fl => .reply rest (encodeReply (intToU32 (fl u)) handle) [.flushCb u]
        | none => .reply rest (encodeReply 0 handle) []
      | 4 =>
        match aop.trim with
        | some tr => .reply rest (encodeReply (intToU32 (tr offset len u)) handle)
            [.trimCb offset len u]
        | none => .reply rest (encodeReply 0 handle) []
      | _ => .fatal

/-- The full dispatch loop `serve_nbd` (`src/buse.c` lines 112-197):
iterate `serveStep` until end of stream, a DISCONNECT, or an assertion
failure.  `some out` models returning `EXIT_SUCCESS` having written the
bytes `out`; `none` models an abort.  (The `bytes_read == -1` branch, line
192, needs a channel I/O error, which the byte-list channel cannot
produce.) -/
def serve_nbd {α : Type} (aop : BuseOperations α) (u : α) (input : List Nat) :
    Option (List Nat) :=
  match h : serveStep aop u input with
  | .eof => some []
  | .fatal => none
  | .disc _ _ => some []
  | .reply rest out _tr =>
    match serve_nbd aop u rest with
    | some tail => some (out ++ tail)
    | none => none
termination_by input.length
decreasing_by
  simp only [serveStep] at h
  repeat' split at h
  any_goals cases h
  all_goals simp_all [List.length_drop]
  all_goals omega

/-- Raw serialisation of a `struct nbd_request` header whose fields hold the
host words `magic, ty, offset, len` (no byte-order conversion): the bytes a
little-endian host stores. -/
def encodeHeader (magic ty : Nat) (handle : List Nat) (offset len : Nat) : List Nat :=
  le32 magic ++ le32 ty ++ handle ++ le64 offset ++ le32 len

/-- Wire image of a well-formed request: each header field stored by a
little-endian host after `hton` conversion, so each multi-byte field is
big-endian on the wire.  This is what the kernel peer sends. -/
def encodeRequest (ty : Nat) (handle : List Nat) (offset len : Nat) : List Nat :=
  encodeHeader (htonl NBD_REQUEST_MAGIC) (htonl ty) handle (htonll offset) (htonl len)

/-- Output bytes of a step, `[]` when no reply was produced. -/
def stepOut {α : Type} : StepResult α → List Nat
  | .reply _ out _ => out
  | _ => []

/-- The four wire bytes of the `error` (status) field of an emitted reply:
bytes 4..8 of the serialised `struct nbd_reply`. -/
def wireStatusBytes (out : List Nat) : List Nat := (out.drop 4).take 4

/-- The signal handler `disconnect_nbd` (`src/buse.c` lines 88-99).
The global `nbd_dev_to_disconnect` (`-1` = no active device) is passed in
and the updated value returned; `ioctlOk h` models whether
`ioctl (h, NBD_DISCONNECT)` succeeds.  Result: (new state, handle the
disconnect ioctl was issued on if any, whether the failure warning was
emitted).  On ioctl failure the handler `warn`s and leaves the state
unchanged; on success it clears the state to `-1`. -/
def disconnect_nbd (ioctlOk : Int → Bool) (nbd_dev_to_disconnect : Int) :
    Int × Option Int × Bool :=
  if nbd_dev_to_disconnect ≠ -1 then
    if ioctlOk nbd_dev_to_disconnect then (-1, some nbd_dev_to_disconnect, false)
    else (nbd_dev_to_disconnect, some nbd_dev_to_disconnect, true)
  else (nbd_dev_to_disconnect, none, false)

/-- The parent-process tail of `buse_main` (`src/buse.c` lines 277-309):
`assert (nbd_dev_to_disconnect == -1)` — abort (`none`) if another device
handle is already recorded — then record `nbd` in the slot, install the
signal handlers, and run `serve_nbd` on the parent's socket end.  Returns
the recorded slot value together with the serve result.  (Successful
`sigaction`/`open` of the device file, which only fail on environment
errors, are assumed.) -/
def buse_main_parent {α : Type} (aop : BuseOperations α) (u : α) (nbd_dev_to_disconnect : Int)
    (nbd : Int) (input : List Nat) : Option (Int × Option (List Nat)) :=
  if nbd_dev_to_disconnect = -1 then some (nbd, serve_nbd aop u input) else none

/-- A concrete write callback used to witness the WRITE theorems. -/
def wfun : List Nat → Nat → Nat → Nat → Int := fun _ _ _ _ => 0

/-- A concrete read callback used to witness the READ theorems. -/
def rfun : Nat → Nat → Nat → List Nat × Int := fun len _ _ => (List.replicate len 7, 0)

/-- A read callback returning the nonzero status 5, exhibiting that callback
statuses are stored without `htonl`. -/
def rfun5 : Nat → Nat → Nat → List Nat × Int := fun _ _ _ => ([], 5)

/-- Operation table with every callback registered. -/
def opsAll : BuseOperations Nat :=
  { read := some rfun, write := some wfun, disc := some fun _ => (),
    flush := some fun _ => 0, trim := some fun _ _ _ => 0 }

/-- Operation table with no callback registered. -/
def opsNone : BuseOperations Nat := {}

/-- Operation table whose read callback returns status 5. -/
def opsRead5 : BuseOperations Nat := { read := some rfun5 }

/-! ## Arithmetic of the byte-order helpers -/

theorem bswap32_bytes (b0 b1 b2 b3 : Nat) (h0 : b0 < 256) (h1 : b1 < 256) (h2 : b2 < 256)
    (h3 : b3 < 256) :
    bswap32 (b3 * 16777216 + b2 * 65536 + b1 * 256 + b0) =
      b0 * 16777216 + b1 * 65536 + b2 * 256 + b3 := by
  unfold bswap32
  omega

theorem bswap32_lt (a : Nat) : bswap32 a < 4294967296 := by
  unfold bswap32
  omega

theorem bswap32_bswap32 (a : Nat) : bswap32 (bswap32 a) = a % 4294967296 := by
  show bswap32 ((a % 256) * 16777216 + (a / 256 % 256) * 65536 + (a / 65536 % 256) * 256 +
      (a / 16777216 % 256)) = a % 4294967296
  rw [bswap32_bytes _ _ _ _ (by omega) (by omega) (by omega) (by omega)]
  omega

theorem htonl_lt (v : Nat) : htonl v < 4294967296 := bswap32_lt v

theorem ntohl_htonl (v : Nat) (h : v < 4294967296) : ntohl (htonl v) = v := by
  show bswap32 (bswap32 v) = v
  rw [bswap32_bswap32, Nat.mod_eq_of_lt h]

theorem htonll_lt (v : Nat) : htonll v < 18446744073709551616 := by
  simp only [htonll, ntohll, ntohl]
  have h1 := bswap32_lt (v % 4294967296)
  have h2 := bswap32_lt (v / 4294967296)
  omega

theorem ntohll_htonll (v : Nat) (h : v < 18446744073709551616) : ntohll (htonll v) = v := by
  unfold htonll ntohll ntohl
  have h1 := bswap32_lt (v % 4294967296)
  have h2 := bswap32_lt (v / 4294967296)
  have e1 : (bswap32 (v % 4294967296) * 4294967296 + bswap32 (v / 4294967296)) % 4294967296 =
      bswap32 (v / 4294967296) := by omega
  have e2 : (bswap32 (v % 4294967296) * 4294967296 + bswap32 (v / 4294967296)) / 4294967296 =
      bswap32 (v % 4294967296) := by omega
  simp only [e1, e2, bswap32_bswap32]
  omega

theorem htonl_mod (v : Nat) : htonl v % 4294967296 = htonl v :=
  Nat.mod_eq_of_lt (htonl_lt v)

theorem htonll_mod (v : Nat) : htonll v % 18446744073709551616 = htonll v :=
  Nat.mod_eq_of_lt (htonll_lt v)

/-! ## Serialisation helpers -/

theorem leVal_le32 (v : Nat) : leVal (le32 v) = v % 4294967296 := by
  simp [le32, leVal]
  omega

theorem leVal_le64 (v : Nat) : leVal (le64 v) = v % 18446744073709551616 := by
  simp [le64, le32, leVal]
  omega

theorem le32_length (v : Nat) : (le32 v).length = 4 := by simp [le32]

theorem le64_length (v : Nat) : (le64 v).length = 8 := by simp [le64, le32]

theorem padTo_length (n : Nat) (l : List Nat) : (padTo n l).length = n := by
  simp [padTo]
  omega

theorem encodeReply_length (e : Nat) (H : List Nat) (hH : H.length = 8) :
    (encodeReply e H).length = 16 := by
  simp [encodeReply, le32, hH]

/-! ## Parsing the serialised request header -/

theorem eh_length {m t o l : Nat} {H : List Nat} (hH : H.length = 8) :
    (encodeHeader m t H o l).length = 28 := by
  simp [encodeHeader, le32, le64, hH]

theorem eh_app_length {m t o l : Nat} {H extra : List Nat} (hH : H.length = 8) :
    (encodeHeader m t H o l ++ extra).length = 28 + extra.length := by
  simp [List.length_append, eh_length hH]

theorem eh_take28 {m t o l : Nat} {H extra : List Nat} (hH : H.length = 8) :
    (encodeHeader m t H o l ++ extra).take 28 = encodeHeader m t H o l :=
  List.take_left' (eh_length hH)

theorem eh_drop28 {m t o l : Nat} {H extra : List Nat} (hH : H.length = 8) :
    (encodeHeader m t H o l ++ extra).drop 28 = extra :=
  List.drop_left' (eh_length hH)

theorem eh_take4 {m t o l : Nat} {H : List Nat} :
    (encodeHeader m t H o l).take 4 = le32 m := by
  simp [encodeHeader, le32]

theorem eh_drop4_take4 {m t o l : Nat} {H : List Nat} :
    ((encodeHeader m t H o l).drop 4).take 4 = le32 t := by
  simp [encodeHeader, le32]

theorem eh_drop8_take8 {m t o l : Nat} {H : List Nat} (hH : H.length = 8) :
    ((encodeHeader m t H o l).drop 8).take 8 = H := by
  simp [encodeHeader, le32, List.take_left' hH]

theorem eh_drop16_take8 {m t o l : Nat} {H : List Nat} (hH : H.length = 8) :
    ((encodeHeader m t H o l).drop 16).take 8 = le64 o := by
  simp [encodeHeader, le32, le64, List.drop_left' hH]

theorem drop_past_handle {H X : List Nat} (hH : H.length = 8) (n : Nat) :
    (H ++ X).drop (8 + n) = X.drop n := by
  rw [← hH, List.drop_append]

theorem drop_past_le32 {X : List Nat} (v n : Nat) : (le32 v ++ X).drop (4 + n) = X.drop n := by
  rw [← le32_length v, List.drop_append]

theorem eh_drop24_take4 {m t o l : Nat} {H : List Nat} (hH : H.length = 8) :
    ((encodeHeader m t H o l).drop 24).take 4 = le32 l := by
  have e : (encodeHeader m t H o l).drop 24 = le32 l := by
    have assoc : encodeHeader m t H o l = le32 m ++ (le32 t ++ (H ++ (le64 o ++ le32 l))) := by
      simp [encodeHeader, List.append_assoc]
    rw [assoc, show (24 : Nat) = 4 + 20 from rfl, drop_past_le32,
      show (20 : Nat) = 4 + 16 from rfl, drop_past_le32,
      show (16 : Nat) = 8 + 8 from rfl, drop_past_handle hH,
      show (8 : Nat) = 8 + 0 from rfl, ← le64_length o, List.drop_append, List.drop_zero]
  rw [e]
  exact List.take_of_length_le (by rw [le32_length])

/-! ## C1: WRITE requests -/

/-- C1: For every WRITE request of length `L`, the dispatch loop consumes exactly `L`
payload bytes from the channel before any reply is sent — the step consumes the 28-byte
header plus exactly the `L` payload bytes, leaving `extra` — regardless of callback
outcome; the reply consists of the 16-byte header only (no payload), with status equal
to the write callback's return value (the callback being invoked with the payload
buffer, length, offset and userdata) when the callback is present, and `htonl EPERM`
("not permitted") with no callback invocation when it is absent. -/
theorem C1_write_request {α : Type} (aop : BuseOperations α) (u : α) (H : List Nat)
    (hH : H.length = 8) (off L : Nat) (payload extra : List Nat)
    (hoff : off < 18446744073709551616) (hL : L < 4294967296) (hp : payload.length = L) :
    (∀ wr, aop.write = some wr →
      serveStep aop u (encodeRequest 1 H off L ++ (payload ++ extra)) =
        .reply extra (encodeReply (intToU32 (wr payload L off u)) H)
          [.writeCb payload L off u]) ∧
    (aop.write = none →
      serveStep aop u (encodeRequest 1 H off L ++ (payload ++ extra)) =
        .reply extra (encodeReply (htonl EPERM) H) []) ∧
    (∀ e, (encodeReply e H).length = 16) ∧
    (encodeRequest 1 H off L ++ (payload ++ extra)).length = (28 + L) + extra.length := by
  refine ⟨?_, ?_, fun e => encodeReply_length e H hH, ?_⟩
  · intro wr hwr
    simp only [encodeRequest, serveStep, eh_app_length hH, eh_take28 hH, eh_drop28 hH,
      eh_take4, eh_drop4_take4, eh_drop8_take8 hH, eh_drop16_take8 hH, eh_drop24_take4 hH,
      leVal_le32, leVal_le64, htonl_mod, htonll_mod, hwr,
      ntohl_htonl 1 (by norm_num), ntohl_htonl L hL, ntohll_htonll off hoff]
    rw [if_neg (by omega), if_neg (by omega), if_neg (by simp)]
    rw [if_pos (by rw [List.length_append, hp]; omega)]
    rw [List.take_left' hp, List.drop_left' hp]
  · intro hwr
    simp only [encodeRequest, serveStep, eh_app_length hH, eh_take28 hH, eh_drop28 hH,
      eh_take4, eh_drop4_take4, eh_drop8_take8 hH, eh_drop16_take8 hH, eh_drop24_take4 hH,
      leVal_le32, leVal_le64, htonl_mod, htonll_mod, hwr,
      ntohl_htonl 1 (by norm_num), ntohl_htonl L hL, ntohll_htonll off hoff]
    rw [if_neg (by omega), if_neg (by omega), if_neg (by simp)]
    rw [if_pos (by rw [List.length_append, hp]; omega)]
    rw [List.drop_left' hp]
  · simp only [encodeRequest]
    rw [eh_app_length hH, List.length_append, hp]
    omega

/-- C1 witness: a concrete WRITE request of length 2, once against the full operation
table and once against the empty one. -/
theorem C1_witness :
    serveStep opsAll 0 (encodeRequest 1 [1, 2, 3, 4, 5, 6, 7, 8] 5 2 ++ ([9, 9] ++ [])) =
      .reply [] (encodeReply (intToU32 (wfun [9, 9] 2 5 0)) [1, 2, 3, 4, 5, 6, 7, 8])
        [.writeCb [9, 9] 2 5 0] ∧
    serveStep opsNone 0 (encodeRequest 1 [1, 2, 3, 4, 5, 6, 7, 8] 5 2 ++ ([9, 9] ++ [])) =
      .reply [] (encodeReply (htonl EPERM) [1, 2, 3, 4, 5, 6, 7, 8]) [] :=
  ⟨(C1_write_request opsAll 0 [1, 2, 3, 4, 5, 6, 7, 8] (by decide) 5 2 [9, 9] []
      (by decide) (by decide) rfl).1 wfun rfl,
   (C1_write_request opsNone 0 [1, 2, 3, 4, 5, 6, 7, 8] (by decide) 5 2 [9, 9] []
      (by decide) (by decide) rfl).2.1 rfl⟩

/-! ## C2: READ requests -/

/-- C2: For every READ request of length `L`, exactly `L` payload bytes are sent on the
channel after the 16-byte reply header, whether or not a read callback is registered:
with a callback the payload is the `L`-byte buffer the callback filled (`padTo L`) and
the status its return value; without one the reply status word is `htonl EPERM`, no
callback is invoked (empty trace), and `L` (zero-modelled, content unspecified) bytes
are still sent. -/
theorem C2_read_request {α : Type} (aop : BuseOperations α) (u : α) (H : List Nat)
    (hH : H.length = 8) (off L : Nat) (extra : List Nat)
    (hoff : off < 18446744073709551616) (hL : L < 4294967296) :
    (∀ rd, aop.read = some rd →
      serveStep aop u (encodeRequest 0 H off L ++ extra) =
        .reply extra (encodeReply (intToU32 (rd L off u).2) H ++ padTo L (rd L off u).1)
          [.readCb L off u]) ∧
    (aop.read = none →
      serveStep aop u (encodeRequest 0 H off L ++ extra) =
        .reply extra (encodeReply (htonl EPERM) H ++ List.replicate L 0) []) ∧
    (∀ l, (padTo L l).length = L) ∧ (List.replicate L 0).length = L := by
  refine ⟨?_, ?_, fun l => padTo_length L l, List.length_replicate L 0⟩
  · intro rd hrd
    simp only [encodeRequest, serveStep, eh_app_length hH, eh_take28 hH, eh_drop28 hH,
      eh_take4, eh_drop4_take4, eh_drop8_take8 hH, eh_drop16_take8 hH, eh_drop24_take4 hH,
      leVal_le32, leVal_le64, htonl_mod, htonll_mod, hrd,
      ntohl_htonl 0 (by norm_num), ntohl_htonl L hL, ntohll_htonll off hoff]
    rw [if_neg (by omega), if_neg (by omega), if_neg (by simp)]
  · intro hrd
    simp only [encodeRequest, serveStep, eh_app_length hH, eh_take28 hH, eh_drop28 hH,
      eh_take4, eh_drop4_take4, eh_drop8_take8 hH, eh_drop16_take8 hH, eh_drop24_take4 hH,
      leVal_le32, leVal_le64, htonl_mod, htonll_mod, hrd,
      ntohl_htonl 0 (by norm_num), ntohl_htonl L hL, ntohll_htonll off hoff]
    rw [if_neg (by omega), if_neg (by omega), if_neg (by simp)]

/-- C2 witness: a concrete READ request of length 3, once with the read callback
registered and once without. -/
theorem C2_witness :
    serveStep opsAll 0 (encodeRequest 0 [1, 2, 3, 4, 5, 6, 7, 8] 5 3 ++ []) =
      .reply [] (encodeReply (intToU32 (rfun 3 5 0).2) [1, 2, 3, 4, 5, 6, 7, 8] ++
        padTo 3 (rfun 3 5 0).1) [.readCb 3 5 0] ∧
    serveStep opsNone 0 (encodeRequest 0 [1, 2, 3, 4, 5, 6, 7, 8] 5 3 ++ []) =
      .reply [] (encodeReply (htonl EPERM) [1, 2, 3, 4, 5, 6, 7, 8] ++
        List.replicate 3 0) [] :=
  ⟨(C2_read_request opsAll 0 [1, 2, 3, 4, 5, 6, 7, 8] (by decide) 5 3 []
      (by decide) (by decide)).1 rfun rfl,
   (C2_read_request opsNone 0 [1, 2, 3, 4, 5, 6, 7, 8] (by decide) 5 3 []
      (by decide) (by decide)).2.1 rfl⟩

/-! ## Unfolding lemmas for the loop -/

theorem serve_nbd_of_eof {α : Type} {aop : BuseOperations α} {u : α} {input : List Nat}
    (h : serveStep aop u input = .eof) : serve_nbd aop u input = some [] := by
  rw [serve_nbd]
  split <;> simp_all

theorem serve_nbd_of_fatal {α : Type} {aop : BuseOperations α} {u : α} {input : List Nat}
    (h : serveStep aop u input = .fatal) : serve_nbd aop u input = none := by
  rw [serve_nbd]
  split <;> simp_all

theorem serve_nbd_of_disc {α : Type} {aop : BuseOperations α} {u : α} {input rest : List Nat}
    {tr : List (Event α)} (h : serveStep aop u input = .disc rest tr) :
    serve_nbd aop u input = some [] := by
  rw [serve_nbd]
  split <;> simp_all

/-! ## C4: clean shutdown versus partial header -/

/-- C4: End-of-stream with zero bytes read before any header bytes terminates the
dispatch loop with success and no output (no reply attempted); a channel that closes
with only part of a request header delivered (fewer than the 28 header bytes) takes the
fatal assertion path, not the clean-shutdown path. -/
theorem C4_shutdown {α : Type} (aop : BuseOperations α) (u : α) :
    serve_nbd aop u [] = some [] ∧
    ∀ input : List Nat, input ≠ [] → input.length < 28 → serve_nbd aop u input = none := by
  constructor
  · exact serve_nbd_of_eof (by simp [serveStep])
  · intro input h1 h2
    refine serve_nbd_of_fatal ?_
    simp only [serveStep]
    rw [if_neg (by simpa using h1), if_pos h2]

/-- C4 witness: the empty channel and a 3-byte partial header. -/
theorem C4_witness :
    serve_nbd opsNone 0 [] = some [] ∧ serve_nbd opsNone 0 [1, 2, 3] = none :=
  ⟨(C4_shutdown opsNone 0).1, (C4_shutdown opsNone 0).2 [1, 2, 3] (by decide) (by decide)⟩

/-! ## C5: the reply handle echoes the request handle -/

theorem encodeReply_chunk_handle (e : Nat) (Hn chunk : List Nat) (hH : Hn.length = 8) :
    ((encodeReply e Hn ++ chunk).drop 8).take 8 = Hn := by
  simp [encodeReply, le32, List.take_left' hH]

theorem encodeReply_handle (e : Nat) (Hn : List Nat) (hH : Hn.length = 8) :
    ((encodeReply e Hn).drop 8).take 8 = Hn := by
  simp [encodeReply, le32, List.take_of_length_le (le_of_eq hH)]

theorem take28_drop_take (l : List Nat) (a b : Nat) (hab : a + b ≤ 28) :
    ((l.take 28).drop a).take b = (l.drop a).take b := by
  rw [List.drop_take, List.take_take]
  congr 1
  omega

theorem take28_drop8_take8_length (l : List Nat) (hl : 28 ≤ l.length) :
    (((l.take 28).drop 8).take 8).length = 8 := by
  simp [List.length_take, List.length_drop]
  omega

/-- C5: For every request type that produces a reply (READ, WRITE, FLUSH, TRIM — i.e.
whenever the step emits a reply at all), the handle field of the emitted reply (bytes
8..16 of the written reply struct) is byte-for-byte the handle field of the triggering
request (bytes 8..16 of its header). -/
theorem C5_reply_handle {α : Type} (aop : BuseOperations α) (u : α)
    (input rest out : List Nat) (tr : List (Event α))
    (h : serveStep aop u input = .reply rest out tr) :
    (out.drop 8).take 8 = (input.drop 8).take 8 := by
  simp only [serveStep] at h
  repeat' split at h
  any_goals cases h
  all_goals first
    | rw [encodeReply_chunk_handle _ _ _ (take28_drop8_take8_length input (by omega)),
        take28_drop_take input 8 8 (by norm_num)]
    | rw [encodeReply_handle _ _ (take28_drop8_take8_length input (by omega)),
        take28_drop_take input 8 8 (by norm_num)]

/-- C5 witness: a concrete FLUSH request against the empty operation table. -/
theorem C5_witness :
    ((encodeReply 0 [10, 20, 30, 40, 50, 60, 70, 80]).drop 8).take 8 =
      ((encodeRequest 3 [10, 20, 30, 40, 50, 60, 70, 80] 0 0).drop 8).take 8 :=
  C5_reply_handle opsNone 0 (encodeRequest 3 [10, 20, 30, 40, 50, 60, 70, 80] 0 0) []
    (encodeReply 0 [10, 20, 30, 40, 50, 60, 70, 80]) [] (by decide)

/-! ## C6: DISCONNECT -/

/-- C6: On a DISCONNECT request the dispatch loop invokes the disconnect callback when
one is present (and no callback at all when absent), sends no reply for this command,
and `serve_nbd` terminates immediately with success status and no further output. -/
theorem C6_disconnect {α : Type} (aop : BuseOperations α) (u : α) (H : List Nat)
    (hH : H.length = 8) (off L : Nat) (extra : List Nat)
    (hoff : off < 18446744073709551616) (hL : L < 4294967296) :
    (∀ d, aop.disc = some d →
      serveStep aop u (encodeRequest 2 H off L ++ extra) = .disc extra [.discCb u]) ∧
    (aop.disc = none →
      serveStep aop u (encodeRequest 2 H off L ++ extra) = .disc extra []) ∧
    serve_nbd aop u (encodeRequest 2 H off L ++ extra) = some [] := by
  have key : serveStep aop u (encodeRequest 2 H off L ++ extra) =
      (match aop.disc with
       | some _ => .disc extra [.discCb u]
       | none => .disc extra []) := by
    simp only [encodeRequest, serveStep, eh_app_length hH, eh_take28 hH, eh_drop28 hH,
      eh_take4, eh_drop4_take4, eh_drop8_take8 hH, eh_drop16_take8 hH, eh_drop24_take4 hH,
      leVal_le32, leVal_le64, htonl_mod, htonll_mod,
      ntohl_htonl 2 (by norm_num), ntohl_htonl L hL, ntohll_htonll off hoff]
    rw [if_neg (by omega), if_neg (by omega), if_neg (by simp)]
  refine ⟨fun d hd => ?_, fun hd => ?_, ?_⟩
  · rw [key, hd]
  · rw [key, hd]
  · cases hd : aop.disc with
    | some d => exact serve_nbd_of_disc (by rw [key, hd])
    | none => exact serve_nbd_of_disc (by rw [key, hd])

/-- C6 witness: a concrete DISCONNECT request with and without the callback. -/
theorem C6_witness :
    serveStep opsAll 0 (encodeRequest 2 [1, 2, 3, 4, 5, 6, 7, 8] 0 0 ++ []) =
      .disc [] [.discCb 0] ∧
    serveStep opsNone 0 (encodeRequest 2 [1, 2, 3, 4, 5, 6, 7, 8] 0 0 ++ []) =
      .disc [] [] ∧
    serve_nbd opsNone 0 (encodeRequest 2 [1, 2, 3, 4, 5, 6, 7, 8] 0 0 ++ []) = some [] :=
  ⟨(C6_disconnect opsAll 0 [1, 2, 3, 4, 5, 6, 7, 8] (by decide) 0 0 []
      (by decide) (by decide)).1 _ rfl,
   (C6_disconnect opsNone 0 [1, 2, 3, 4, 5, 6, 7, 8] (by decide) 0 0 []
      (by decide) (by decide)).2.1 rfl,
   (C6_disconnect opsNone 0 [1, 2, 3, 4, 5, 6, 7, 8] (by decide) 0 0 []
      (by decide) (by decide)).2.2⟩

/-! ## C7: magic and command-type validation is fatal -/

theorem take28_take4 (l : List Nat) : (l.take 28).take 4 = l.take 4 := by
  rw [List.take_take]
  norm_num

/-- C7: A request whose magic field (big-endian interpretation of its first four bytes,
i.e. the host word compared against `htonl NBD_REQUEST_MAGIC`) is wrong, or whose
command type is outside {0..4}, makes the dispatch step fatal (assertion failure): it
does not skip the request, reply, or continue. -/
theorem C7_fatal_validation {α : Type} (aop : BuseOperations α) (u : α) (input : List Nat)
    (hle : 28 ≤ input.length) :
    (leVal (input.take 4) ≠ htonl NBD_REQUEST_MAGIC → serveStep aop u input = .fatal) ∧
    (4 < ntohl (leVal ((input.drop 4).take 4)) → serveStep aop u input = .fatal) := by
  constructor
  · intro hmag
    simp only [serveStep]
    rw [if_neg (by omega), if_neg (by omega), take28_take4, if_pos hmag]
  · intro hty
    simp only [serveStep]
    rw [if_neg (by omega), if_neg (by omega), take28_take4,
      take28_drop_take input 4 4 (by norm_num)]
    by_cases hmag : leVal (input.take 4) ≠ htonl NBD_REQUEST_MAGIC
    · rw [if_pos hmag]
    · rw [if_neg hmag]
      obtain ⟨n, hn⟩ : ∃ n, ntohl (leVal ((input.drop 4).take 4)) = n + 5 :=
        ⟨ntohl (leVal ((input.drop 4).take 4)) - 5, by omega⟩
      rw [hn]
      rfl

/-- C7 witness: an all-zero header (wrong magic) and a valid-magic header with command
type 7. -/
theorem C7_witness :
    serveStep opsNone 0 (List.replicate 28 0) = .fatal ∧
    serveStep opsNone 0 (encodeRequest 7 [0, 0, 0, 0, 0, 0, 0, 0] 0 0) = .fatal :=
  ⟨(C7_fatal_validation opsNone 0 (List.replicate 28 0) (by decide)).1 (by decide),
   (C7_fatal_validation opsNone 0 (encodeRequest 7 [0, 0, 0, 0, 0, 0, 0, 0] 0 0)
      (by decide)).2 (by decide)⟩

/-! ## C8: the disconnect signal handler state machine -/

/-- C8: The signal handler follows Inactive (`-1`) → Active(handle) → Inactive: when
Active it issues the kernel disconnect ioctl on the recorded handle, clearing the state
to Inactive exactly when the ioctl succeeds; on ioctl failure it reports (warns) and
leaves the state unchanged so a later signal can retry; when Inactive it performs no
action at all. -/
theorem C8_disconnect_state (ioctlOk : Int → Bool) (st : Int) :
    (st ≠ -1 → ioctlOk st = true → disconnect_nbd ioctlOk st = (-1, some st, false)) ∧
    (st ≠ -1 → ioctlOk st = false → disconnect_nbd ioctlOk st = (st, some st, true)) ∧
    disconnect_nbd ioctlOk (-1) = (-1, none, false) := by
  refine ⟨?_, ?_, ?_⟩ <;> intros <;> simp_all [disconnect_nbd]

/-- C8 witness: handle 3 with a succeeding and with a failing ioctl, and the inactive
state. -/
theorem C8_witness :
    disconnect_nbd (fun _ => true) 3 = (-1, some 3, false) ∧
    disconnect_nbd (fun _ => false) 3 = (3, some 3, true) ∧
    disconnect_nbd (fun _ => true) (-1) = (-1, none, false) :=
  ⟨(C8_disconnect_state (fun _ => true) 3).1 (by decide) rfl,
   (C8_disconnect_state (fun _ => false) 3).2.1 (by decide) rfl,
   (C8_disconnect_state (fun _ => true) (-1)).2.2⟩

/-! ## C9: byte-order round-trips -/

/-- C9: `ntohll` (with `htonll` defined as the same function) is an involution on
64-bit values, the 32-bit conversion likewise on 32-bit values, and decoding the
multi-byte fields of a 28-byte request header then re-serialising them reproduces the
original bytes exactly. -/
theorem C9_codec_roundtrip :
    (∀ a : Nat, a < 18446744073709551616 → ntohll (ntohll a) = a) ∧
    (∀ b : Nat, b < 4294967296 → ntohl (ntohl b) = b) ∧
    (∀ b0 b1 b2 b3 b4 b5 b6 b7 b8 b9 b10 b11 b12 b13 b14 b15 b16 b17 b18 b19 b20 b21
        b22 b23 b24 b25 b26 b27 : Nat,
      (∀ b ∈ [b0, b1, b2, b3, b4, b5, b6, b7, b8, b9, b10, b11, b12, b13, b14, b15,
        b16, b17, b18, b19, b20, b21, b22, b23, b24, b25, b26, b27], b < 256) →
      encodeHeader (leVal [b0, b1, b2, b3]) (leVal [b4, b5, b6, b7])
          [b8, b9, b10, b11, b12, b13, b14, b15]
          (leVal [b16, b17, b18, b19, b20, b21, b22, b23]) (leVal [b24, b25, b26, b27]) =
        [b0, b1, b2, b3, b4, b5, b6, b7, b8, b9, b10, b11, b12, b13, b14, b15,
          b16, b17, b18, b19, b20, b21, b22, b23, b24, b25, b26, b27]) := by
  refine ⟨fun a ha => ntohll_htonll a ha, fun b hb => ntohl_htonl b hb, ?_⟩
  intro b0 b1 b2 b3 b4 b5 b6 b7 b8 b9 b10 b11 b12 b13 b14 b15 b16 b17 b18 b19 b20 b21
    b22 b23 b24 b25 b26 b27 hb
  simp only [List.mem_cons, List.not_mem_nil, or_false, forall_eq_or_imp, forall_eq] at hb
  obtain ⟨c0, c1, c2, c3, c4, c5, c6, c7, c8, c9, c10, c11, c12, c13, c14, c15, c16,
    c17, c18, c19, c20, c21, c22, c23, c24, c25, c26, c27⟩ := hb
  simp only [encodeHeader, le32, le64, leVal, List.cons_append, List.nil_append,
    List.cons.injEq, and_true]
  norm_num
  omega

/-- C9 witness: the involutions at 300 and 7, and the byte round-trip on the bytes
0..27. -/
theorem C9_witness :
    ntohll (ntohll 300) = 300 ∧ ntohl (ntohl 7) = 7 ∧
    encodeHeader (leVal [0, 1, 2, 3]) (leVal [4, 5, 6, 7]) [8, 9, 10, 11, 12, 13, 14, 15]
        (leVal [16, 17, 18, 19, 20, 21, 22, 23]) (leVal [24, 25, 26, 27]) =
      [0, 1, 2, 3, 4, 5, 6, 7, 8, 9, 10, 11, 12, 13, 14, 15, 16, 17, 18, 19, 20, 21,
        22, 23, 24, 25, 26, 27] :=
  ⟨C9_codec_roundtrip.1 300 (by decide), C9_codec_roundtrip.2.1 7 (by decide),
   C9_codec_roundtrip.2.2 0 1 2 3 4 5 6 7 8 9 10 11 12 13 14 15 16 17 18 19 20 21 22 23
     24 25 26 27 (by decide)⟩

/-! ## C10: one device session per process -/

/-- C10: `buse_main` asserts that the process-wide disconnect slot holds "no active
device" (`-1`) before recording the new handle: entering with a previous session's
handle still recorded aborts the process (no result) instead of overwriting the slot,
while entering with a free slot records the new handle and proceeds to serve. -/
theorem C10_single_session {α : Type} (aop : BuseOperations α) (u : α) (slot nbd : Int)
    (input : List Nat) :
    (slot ≠ -1 → buse_main_parent aop u slot nbd input = none) ∧
    buse_main_parent aop u (-1) nbd input = some (nbd, serve_nbd aop u input) := by
  constructor
  · intro h
    simp [buse_main_parent, h]
  · simp [buse_main_parent]

/-- C10 witness: a stale handle 7 aborts; a free slot records handle 9. -/
theorem C10_witness :
    buse_main_parent opsNone 0 7 9 [] = none ∧
    buse_main_parent opsNone 0 (-1) 9 [] = some (9, serve_nbd opsNone 0 []) :=
  ⟨(C10_single_session opsNone 0 7 9 []).1 (by decide),
   (C10_single_session opsNone 0 (-1) 9 []).2⟩

/-! ## C3: callback statuses are stored without byte swapping (code bug) -/

/-- C3 (code bug): the reply magic and the built-in `EPERM` status are byte-swapped
(`htonl`) before being stored, so they are big-endian on the wire, but a status
returned by a callback is assigned to `reply.error` verbatim (lines 143, 158, 175, 183
have no `htonl`), so on the little-endian host it reaches the wire in host byte order.
Concretely: a read callback returning 5 puts `[5, 0, 0, 0]` in the wire status field,
whereas the big-endian encoding of 5 is `[0, 0, 0, 5]`; the built-in EPERM path puts
the big-endian `[0, 0, 0, 1]` there. -/
theorem C3_callback_status_host_order :
    wireStatusBytes (stepOut (serveStep opsRead5 0 (encodeRequest 0 [0, 0, 0, 0, 0, 0, 0, 0] 0 4))) =
      [5, 0, 0, 0] ∧
    le32 (htonl 5) = [0, 0, 0, 5] ∧
    ([5, 0, 0, 0] : List Nat) ≠ [0, 0, 0, 5] ∧
    wireStatusBytes (stepOut (serveStep opsNone 0 (encodeRequest 0 [0, 0, 0, 0, 0, 0, 0, 0] 0 4))) =
      [0, 0, 0, 1] := by
  refine ⟨by decide, by decide, by decide, by decide⟩
